import Mathlib

/-
Verification of the route-mining address pipeline (`src/lib/responder.py`).

The embedding is shallow: each responder's `respond` method becomes a Lean
function on `List Address`.  The Python code mutates the batch list in place;
we make that explicit by threading the list contents, and an exception raised
mid-batch is modelled by a result constructor that carries the contents of the
list at the moment the exception propagates (in-place mutations performed on
earlier entries persist in the caller's list object).

External HTTP clients (`api_client.get(...).json()` / `api_client.post(...)
.json()`) are modelled as functions from the request-determining data to an
`ApiResult`: `ApiResult.err e` stands for a raised exception (transport failure
or a `KeyError` on a missing JSON key such as `candidates` / `addressList`),
and `ApiResult.ok v` for a well-formed response already projected onto the
fields the code reads.
-/

namespace RouteMining

/-- A Python value that is either `None` or a string; used for the
`apt_number` attribute.  `toPy` is Python's `str()` rendering as produced by
an f-string (`None` renders as the literal text "None"); `truthy` is Python
truthiness (only a non-empty string is truthy). -/
inductive PyStr where
  | none : PyStr
  | str (s : String) : PyStr
deriving BEq, DecidableEq

def PyStr.toPy : PyStr → String
  | PyStr.none => "None"
  | PyStr.str s => s

def PyStr.truthy : PyStr → Bool
  | PyStr.none => false
  | PyStr.str s => !s.isEmpty

/-- Modelled from the spec: the `Address` record of `lib/address.py`, which is
not in the source tree.  Spec section 3: attributes street_number,
street_name, apt_number (optional string), city, state, zip, and
carrier_route (optional, populated only by the carrier-route stage).  Spec
section 9 records that an absent apartment number is rendered by the
carrier-route stage as a literal placeholder text, so an absent apt_number is
Python `None` (`PyStr.none`); an unset carrier_route is `Option.none`. -/
structure Address where
  street_number : String
  street_name : String
  apt_number : PyStr
  city : String
  state : String
  zip : String
  carrier_route : Option String
deriving BEq, DecidableEq

/-- Modelled from the spec: `Address.__eq__` of `lib/address.py`, which is not
in the source tree.  Spec section 3: identity/equality is defined over the
core fields only — street_number, street_name, apt_number, city, state, zip —
with carrier_route excluded from equality. -/
def coreEq (a b : Address) : Bool :=
  a.street_number == b.street_number && a.street_name == b.street_name &&
    a.apt_number == b.apt_number && a.city == b.city &&
    a.state == b.state && a.zip == b.zip

/-- Modelled from the spec: `AddressBuilder` of `lib/address.py`, which is not
in the source tree.  Spec sections 3 and 4.3: an incremental builder over the
six core fields ("using the same builder rules as ordinary construction");
`AddressValidationResponder.validate` invokes every setter, so the
missing-required-field failure case cannot arise there.  carrier_route is not
a builder field and starts unset. -/
def buildAddress (street_number street_name : String) (apt_number : PyStr)
    (city state zip : String) : Address :=
  ⟨street_number, street_name, apt_number, city, state, zip, Option.none⟩

/-- Result of an outbound API call followed by `.json()` and key projection:
`err e` models a raised exception (network failure or missing JSON key),
`ok v` the successfully extracted value. -/
inductive ApiResult (α : Type) where
  | err (e : String) : ApiResult α
  | ok (v : α) : ApiResult α
deriving BEq, DecidableEq

/-- The `attributes` object of one geocoder candidate, projected onto the
keys read by `AddressValidationResponder.validate`. -/
structure CandAttributes where
  AddNum : String
  StName : String
  StType : String
  SubAddr : PyStr
  City : String
  RegionAbbr : String
  Postal : String
deriving BEq, DecidableEq

/-- Result of one stage run on the (in-place mutated) batch list:
`ok addresses` is a normal return, `err e addresses` models an exception `e`
propagating out of `respond` with `addresses` the contents of the caller's
list object at that moment (in-place updates to earlier entries persist). -/
inductive StageResult where
  | ok (addresses : List Address) : StageResult
  | err (e : String) (addresses : List Address) : StageResult
deriving BEq, DecidableEq

/-- `AddressValidationResponder.validate`: with no candidate data the address
is assumed correct; otherwise the candidate attributes are turned into a new
Address via the builder (street name is base name ++ " " ++ type) and
compared to the given address with Address equality. -/
def validate (address : Address) (address_json : Option CandAttributes) :
    Bool × Address :=
  match address_json with
  | Option.none => (true, address)
  | Option.some attrs =>
      let received_address := buildAddress attrs.AddNum
        (attrs.StName ++ " " ++ attrs.StType) attrs.SubAddr attrs.City
        attrs.RegionAbbr attrs.Postal
      (coreEq address received_address, received_address)

/-- The candidate-derived Address `validate` builds from a candidate's
attributes. -/
def candAddress (attrs : CandAttributes) : Address :=
  buildAddress attrs.AddNum (attrs.StName ++ " " ++ attrs.StType)
    attrs.SubAddr attrs.City attrs.RegionAbbr attrs.Postal

/-- The per-entry update of `AddressValidationResponder.respond` once the
candidate list has been extracted: `candidates[0] if len(candidates) else ""`
is `candidates.head?`, and the entry is overwritten exactly when the verdict
is false. -/
def valStep (address : Address) (candidates : List CandAttributes) : Address :=
  let vr := validate address candidates.head?
  if vr.fst then address else vr.snd

/-- The body of `AddressValidationResponder.respond`: the loop walks the list
by index, each iteration reads the (still-original) entry at its index, calls
the geocoder and overwrites the entry in place when validation fails; a
raised exception aborts the loop with the earlier in-place updates kept.
`done` holds the already-processed prefix in reverse. -/
def valRespondAux (client : Address → ApiResult (List CandAttributes)) :
    List Address → List Address → StageResult
  | done, [] => StageResult.ok done.reverse
  | done, address :: rest =>
      match client address with
      | ApiResult.err e => StageResult.err e (done.reverse ++ address :: rest)
      | ApiResult.ok candidates =>
          valRespondAux client (valStep address candidates :: done) rest

/-- `AddressValidationResponder.respond` on the whole batch. -/
def validationRespond (client : Address → ApiResult (List CandAttributes))
    (addresses : List Address) : StageResult :=
  valRespondAux client [] addresses

/-- The value an ok run of the validation stage leaves at an entry's index,
as a function of that entry alone. -/
def valEntry (client : Address → ApiResult (List CandAttributes))
    (address : Address) : Address :=
  match client address with
  | ApiResult.ok candidates => valStep address candidates
  | ApiResult.err _ => address

/-- The request dict built by `CarrierRouteRetreiverResponder.respond` for
one address; every field is an f-string rendering. -/
structure CarrierReq where
  address1 : String
  address2 : String
  city : String
  state : String
  urbanCode : String
  zip : String
deriving BEq, DecidableEq

/-- `data` as prepared by `CarrierRouteRetreiverResponder.respond`:
address1 is street number ++ " " ++ street name, address2 is the f-string
rendering of apt_number (the text "None" when the field is Python None),
urbanCode is always empty. -/
def carrierData (address : Address) : CarrierReq :=
  { address1 := address.street_number ++ " " ++ address.street_name
    address2 := address.apt_number.toPy
    city := address.city
    state := address.state
    urbanCode := ""
    zip := address.zip }

/-- The inner loop over `resp_json["addressList"]`: each entry is modelled by
its `carrierRoute` field; the loop takes the first truthy (non-empty) route
and breaks. -/
def firstRoute : List String → Option String
  | [] => Option.none
  | r :: rs => if !r.isEmpty then Option.some r else firstRoute rs

/-- The per-entry update of `CarrierRouteRetreiverResponder.respond`: if some
entry of the address list has a truthy carrierRoute, the first such value is
assigned to the address's carrier_route in place; otherwise the address is
untouched. -/
def carStep (address : Address) (address_list : List String) : Address :=
  match firstRoute address_list with
  | Option.some r => { address with carrier_route := Option.some r }
  | Option.none => address

/-- The body of `CarrierRouteRetreiverResponder.respond`: iterate over the
batch, post the per-address request, scan the returned address list; a raised
exception aborts the loop with earlier in-place updates kept. -/
def carRespondAux (client : CarrierReq → ApiResult (List String)) :
    List Address → List Address → StageResult
  | done, [] => StageResult.ok done.reverse
  | done, address :: rest =>
      match client (carrierData address) with
      | ApiResult.err e => StageResult.err e (done.reverse ++ address :: rest)
      | ApiResult.ok address_list =>
          carRespondAux client (carStep address address_list :: done) rest

/-- `CarrierRouteRetreiverResponder.respond` on the whole batch. -/
def carrierRespond (client : CarrierReq → ApiResult (List String))
    (addresses : List Address) : StageResult :=
  carRespondAux client [] addresses

/-- The value an ok run of the carrier-route stage leaves at an entry's
index, as a function of that entry alone. -/
def carEntry (client : CarrierReq → ApiResult (List String))
    (address : Address) : Address :=
  match client (carrierData address) with
  | ApiResult.ok address_list => carStep address address_list
  | ApiResult.err _ => address

/-- A pipeline stage: one `Responder.respond`, as the transformation it
performs on the contents of the shared batch-list object (with the exception
case carried by `StageResult`). -/
abbrev Stage := List Address → StageResult

/-- `ResponderPipeline.add_first`: `self.responders.appendleft(responder)`. -/
def addFirst (responder : Stage) (responders : List Stage) : List Stage :=
  responder :: responders

/-- `ResponderPipeline.add_last`: `self.responders.append(responder)`. -/
def addLast (responder : Stage) (responders : List Stage) : List Stage :=
  responders ++ [responder]

/-- The loop of `ResponderPipeline.respond`.  In the source each responder is
called on the variable `addresses`, which always aliases the one batch-list
object; every responder in the repository mutates that object in place and
returns it, so after each iteration both `addresses` and `response` denote the
object whose contents are that stage's output.  The embedding therefore
threads the contents from stage to stage.  A raised exception propagates out
of the loop immediately. -/
def pipelineGo (responder : Stage) (rest : List Stage)
    (addresses : List Address) : StageResult :=
  match responder addresses with
  | StageResult.err e l => StageResult.err e l
  | StageResult.ok out =>
      match rest with
      | [] => StageResult.ok out
      | r :: rs => pipelineGo r rs out

/-- `ResponderPipeline.respond`: with zero responders the loop body never
runs, `response` is never bound, and `return response` raises
UnboundLocalError — modelled as `Option.none`. -/
def pipelineRespond (responders : List Stage) (addresses : List Address) :
    Option StageResult :=
  match responders with
  | [] => Option.none
  | r :: rs => Option.some (pipelineGo r rs addresses)

/-- A stage that never raises, given by its pure batch transformation. -/
def pureStage (f : List Address → List Address) : Stage :=
  fun addresses => StageResult.ok (f addresses)

/-- An ok run of the validation loop maps `valEntry` over the remaining
entries, appended to the already-processed prefix. -/
lemma valAux_ok (client : Address → ApiResult (List CandAttributes)) :
    ∀ (rest done out : List Address),
      valRespondAux client done rest = StageResult.ok out →
      out = done.reverse ++ rest.map (valEntry client) := by
  intro rest
  induction rest with
  | nil =>
      intro done out h
      simp only [valRespondAux, StageResult.ok.injEq] at h
      simp [← h]
  | cons a rest ih =>
      intro done out h
      simp only [valRespondAux] at h
      cases hc : client a with
      | err e => rw [hc] at h; exact absurd h (by simp)
      | ok candidates =>
          rw [hc] at h
          have := ih (valStep a candidates :: done) out h
          simp only [List.reverse_cons, List.append_assoc] at this
          simp [this, valEntry, hc]

/-- An ok run of the carrier-route loop maps `carEntry` over the remaining
entries, appended to the already-processed prefix. -/
lemma carAux_ok (client : CarrierReq → ApiResult (List String)) :
    ∀ (rest done out : List Address),
      carRespondAux client done rest = StageResult.ok out →
      out = done.reverse ++ rest.map (carEntry client) := by
  intro rest
  induction rest with
  | nil =>
      intro done out h
      simp only [carRespondAux, StageResult.ok.injEq] at h
      simp [← h]
  | cons a rest ih =>
      intro done out h
      simp only [carRespondAux] at h
      cases hc : client (carrierData a) with
      | err e => rw [hc] at h; exact absurd h (by simp)
      | ok address_list =>
          rw [hc] at h
          have := ih (carStep a address_list :: done) out h
          simp only [List.reverse_cons, List.append_assoc] at this
          simp [this, carEntry, hc]

/-- An ok run of the validation stage is the entrywise map of `valEntry`. -/
lemma validationRespond_ok (client : Address → ApiResult (List CandAttributes))
    (addresses out : List Address)
    (h : validationRespond client addresses = StageResult.ok out) :
    out = addresses.map (valEntry client) := by
  simpa using valAux_ok client addresses [] out h

/-- An ok run of the carrier-route stage is the entrywise map of
`carEntry`. -/
lemma carrierRespond_ok (client : CarrierReq → ApiResult (List String))
    (addresses out : List Address)
    (h : carrierRespond client addresses = StageResult.ok out) :
    out = addresses.map (carEntry client) := by
  simpa using carAux_ok client addresses [] out h

/-- The pipeline loop over never-raising stages folds their transformations
left to right. -/
lemma pipelineGo_pure (fs : List (List Address → List Address)) :
    ∀ (f : List Address → List Address) (batch : List Address),
      pipelineGo (pureStage f) (fs.map pureStage) batch =
        StageResult.ok (List.foldl (fun b g => g b) (f batch) fs) := by
  induction fs with
  | nil => intro f batch; simp [pipelineGo, pureStage]
  | cons g gs ih =>
      intro f batch
      simp only [List.map_cons, List.foldl_cons]
      rw [show pipelineGo (pureStage f) (pureStage g :: gs.map pureStage) batch =
            pipelineGo (pureStage g) (gs.map pureStage) (f batch) from rfl]
      exact ih g (f batch)

/-- `firstRoute` is the first element satisfying Python truthiness. -/
lemma firstRoute_eq_find (l : List String) :
    firstRoute l = l.find? (fun r => !r.isEmpty) := by
  induction l with
  | nil => simp [firstRoute]
  | cons r rs ih =>
      by_cases hr : r.isEmpty
      · simp [firstRoute, List.find?, hr, ih]
      · simp [firstRoute, List.find?, hr]

/-- When the geocoder client first raises at position `k`, the validation
loop propagates that exception and the list holds the processed prefix
followed by the untouched suffix. -/
lemma valAux_err (client : Address → ApiResult (List CandAttributes)) :
    ∀ (rest : List Address) (k : Nat) (hk : k < rest.length) (e : String)
      (done : List Address),
      (∀ j (hj : j < rest.length), j < k →
        ∃ cs, client (rest.get ⟨j, hj⟩) = ApiResult.ok cs) →
      client (rest.get ⟨k, hk⟩) = ApiResult.err e →
      valRespondAux client done rest =
        StageResult.err e
          (done.reverse ++ ((rest.take k).map (valEntry client) ++ rest.drop k)) := by
  intro rest
  induction rest with
  | nil => intro k hk; exact absurd hk (by simp)
  | cons a rest ih =>
      intro k hk e done hok herr
      cases k with
      | zero =>
          simp only [List.get] at herr
          simp [valRespondAux, herr]
      | succ k =>
          obtain ⟨cs, hcs⟩ := hok 0 (by simp) (Nat.succ_pos k)
          simp only [List.get] at hcs
          have hk2 : k < rest.length := Nat.lt_of_succ_lt_succ hk
          have hok2 : ∀ j (hj : j < rest.length), j < k →
              ∃ cs2, client (rest.get ⟨j, hj⟩) = ApiResult.ok cs2 := by
            intro j hj hjk
            have := hok (j + 1) (Nat.succ_lt_succ hj) (Nat.succ_lt_succ hjk)
            simpa using this
          have herr2 : client (rest.get ⟨k, hk2⟩) = ApiResult.err e := by
            simpa using herr
          have := ih k hk2 e (valStep a cs :: done) hok2 herr2
          simp only [valRespondAux, hcs]
          rw [this]
          simp [valEntry, hcs, List.take_succ_cons, List.drop_succ_cons]

/-- Sample address with all fields present. -/
def addrMain : Address :=
  ⟨"123", "Main St", PyStr.str "4", "Springfield", "IL", "62704", Option.none⟩

/-- Sample address with no apartment number (Python `None`). -/
def addrNoApt : Address :=
  ⟨"9", "Elm St", PyStr.none, "Salem", "OR", "97301", Option.none⟩

/-- A geocoder candidate whose derived Address differs from `addrNoApt`
(it carries an apartment number). -/
def candElm : CandAttributes :=
  ⟨"9", "Elm", "St", PyStr.str "7", "Salem", "OR", "97301"⟩

/-- A geocoder candidate whose derived Address agrees with `addrMain` on all
core fields. -/
def candMain : CandAttributes :=
  ⟨"123", "Main", "St", PyStr.str "4", "Springfield", "IL", "62704"⟩

/-- `addrMain` after the carrier-route stage assigned route R1. -/
def addrMainR1 : Address := { addrMain with carrier_route := Option.some "R1" }

/-- `addrMain` with a previously set carrier route. -/
def addrMainRoute : Address :=
  { addrMain with carrier_route := Option.some "R777" }

/-- A sample pure stage: duplicates the batch. -/
def dupStage : List Address → List Address := fun l => l ++ l

/-- A geocoder client returning an empty candidate list for every address. -/
def okEmptyClient : Address → ApiResult (List CandAttributes) :=
  fun _ => ApiResult.ok []

/-- A geocoder client returning the single candidate `candElm`. -/
def elmClient : Address → ApiResult (List CandAttributes) :=
  fun _ => ApiResult.ok [candElm]

/-- A geocoder client returning the single candidate `candMain`. -/
def matchClient : Address → ApiResult (List CandAttributes) :=
  fun _ => ApiResult.ok [candMain]

/-- A geocoder client that answers addresses without an apartment number and
raises a KeyError (missing `candidates` key) on the rest. -/
def keyErrClient : Address → ApiResult (List CandAttributes) :=
  fun address =>
    match address.apt_number with
    | PyStr.none => ApiResult.ok [candElm]
    | PyStr.str _ => ApiResult.err "KeyError: candidates"

/-- A carrier-route client returning the single route R1. -/
def routeOneClient : CarrierReq → ApiResult (List String) :=
  fun _ => ApiResult.ok ["R1"]

/-- A carrier-route client whose address list has an empty route before the
first truthy one. -/
def routesClientEx : CarrierReq → ApiResult (List String) :=
  fun _ => ApiResult.ok ["", "R001", "R2"]

/-- C1: `ResponderPipeline.respond` on a pipeline with at least one stage
feeds the batch into the first stage, passes each stage's output as the input
of the next stage in list order, and returns the final stage's output. -/
theorem c1_respond_threads_stages
    (fs : List (List Address → List Address)) (batch : List Address)
    (hne : fs ≠ []) :
    pipelineRespond (fs.map pureStage) batch =
      Option.some (StageResult.ok (List.foldl (fun b g => g b) batch fs)) := by
  cases fs with
  | nil => exact absurd rfl hne
  | cons f rest => exact congrArg Option.some (pipelineGo_pure rest f batch)

/-- Witness for C1 at a one-stage pipeline and a one-address batch. -/
theorem c1_witness :
    pipelineRespond ([dupStage].map pureStage) [addrMain] =
      Option.some (StageResult.ok [addrMain, addrMain]) :=
  (c1_respond_threads_stages [dupStage] [addrMain] (List.cons_ne_nil _ _)).trans rfl

/-- C2: an ok run of the validation stage, of the carrier-route stage, and of
the pipeline made of the two, returns a batch of the same length whose entry
at index i is a function of the input entry at index i alone (entrywise map:
nothing is reordered, added or dropped). -/
theorem c2_batch_alignment
    (vclient : Address → ApiResult (List CandAttributes))
    (cclient : CarrierReq → ApiResult (List String))
    (batch out1 out2 : List Address) (_hne : batch ≠ [])
    (h1 : validationRespond vclient batch = StageResult.ok out1)
    (h2 : carrierRespond cclient out1 = StageResult.ok out2) :
    out1 = batch.map (valEntry vclient) ∧
    out2 = out1.map (carEntry cclient) ∧
    out1.length = batch.length ∧
    out2.length = batch.length ∧
    pipelineRespond [validationRespond vclient, carrierRespond cclient] batch =
      Option.some (StageResult.ok out2) := by
  have e1 := validationRespond_ok vclient batch out1 h1
  have e2 := carrierRespond_ok cclient out1 out2 h2
  refine ⟨e1, e2, ?_, ?_, ?_⟩
  · rw [e1]; exact List.length_map _ _
  · rw [e2, e1]; simp
  · exact congrArg Option.some (by simp [pipelineGo, h1, h2])

/-- Witness for C2 at a one-address batch, a zero-candidate geocoder and a
one-route carrier lookup. -/
theorem c2_witness :
    [addrMain] = ([addrMain] : List Address).map (valEntry okEmptyClient) ∧
    [addrMainR1] = ([addrMain] : List Address).map (carEntry routeOneClient) ∧
    ([addrMain] : List Address).length = ([addrMain] : List Address).length ∧
    ([addrMainR1] : List Address).length = ([addrMain] : List Address).length ∧
    pipelineRespond [validationRespond okEmptyClient, carrierRespond routeOneClient]
        [addrMain] =
      Option.some (StageResult.ok [addrMainR1]) :=
  c2_batch_alignment okEmptyClient routeOneClient [addrMain] [addrMain] [addrMainR1]
    (List.cons_ne_nil _ _) rfl rfl

/-- In an ok run of the validation stage the output entry at index i is
`valEntry` of the input entry at index i. -/
lemma valRespond_get (client : Address → ApiResult (List CandAttributes))
    (batch out : List Address) (i : Nat) (hi : i < batch.length)
    (h : validationRespond client batch = StageResult.ok out) :
    ∃ hio : i < out.length,
      out.get ⟨i, hio⟩ = valEntry client (batch.get ⟨i, hi⟩) := by
  have e := validationRespond_ok client batch out h
  subst e
  refine ⟨by simpa using hi, ?_⟩
  simp [List.get_eq_getElem, List.getElem_map]

/-- C3: the carrier-route stage scans the response's address list in order,
assigns the first truthy (non-empty) carrierRoute value and stops there;
when no entry has a truthy route the carrier_route stays unset. -/
theorem c3_first_truthy_route
    (client : CarrierReq → ApiResult (List String)) (address : Address)
    (address_list : List String)
    (hc : client (carrierData address) = ApiResult.ok address_list)
    (hunset : address.carrier_route = Option.none) :
    (carEntry client address).carrier_route =
      address_list.find? (fun r => !r.isEmpty) := by
  have hce : carEntry client address = carStep address address_list := by
    simp [carEntry, hc]
  rw [hce, ← firstRoute_eq_find]
  cases hfr : firstRoute address_list with
  | none => simp [carStep, hfr, hunset]
  | some r => simp [carStep, hfr]

/-- Witness for C3: with routes ["", "R001", "R2"], the first truthy route
R001 is assigned. -/
theorem c3_witness :
    (carEntry routesClientEx addrNoApt).carrier_route = Option.some "R001" :=
  (c3_first_truthy_route routesClientEx addrNoApt ["", "R001", "R2"] rfl rfl).trans
    (by decide)

/-- C4: when the geocoder returns a first candidate whose derived Address
(AddNum; StName ++ " " ++ StType; SubAddr; City; RegionAbbr; Postal) differs
from the original on core-field equality, the batch entry at that index is
wholesale-replaced by the candidate-derived Address. -/
theorem c4_differing_candidate_replaces_entry
    (client : Address → ApiResult (List CandAttributes))
    (batch out : List Address) (i : Nat) (hi : i < batch.length)
    (attrs : CandAttributes) (cs : List CandAttributes)
    (h : validationRespond client batch = StageResult.ok out)
    (hc : client (batch.get ⟨i, hi⟩) = ApiResult.ok (attrs :: cs))
    (hne : coreEq (batch.get ⟨i, hi⟩) (candAddress attrs) = false) :
    ∃ hio : i < out.length, out.get ⟨i, hio⟩ = candAddress attrs := by
  obtain ⟨hio, hval⟩ := valRespond_get client batch out i hi h
  refine ⟨hio, ?_⟩
  rw [hval]
  simp only [valEntry, hc, valStep, validate, List.head?]
  simp only [candAddress] at hne ⊢
  rw [hne]
  simp

/-- Witness for C4: `addrNoApt` is replaced by the differing candidate-derived
Address. -/
theorem c4_witness :
    ∃ hio : 0 < List.length [candAddress candElm],
      List.get [candAddress candElm] ⟨0, hio⟩ = candAddress candElm :=
  c4_differing_candidate_replaces_entry elmClient [addrNoApt] [candAddress candElm]
    0 (by decide) candElm [] rfl rfl (by decide)

/-- C5: when the geocoder returns zero candidates for an address, the batch
entry at that index is kept unchanged in every field. -/
theorem c5_zero_candidates_unchanged
    (client : Address → ApiResult (List CandAttributes))
    (batch out : List Address) (i : Nat) (hi : i < batch.length)
    (h : validationRespond client batch = StageResult.ok out)
    (hc : client (batch.get ⟨i, hi⟩) = ApiResult.ok []) :
    ∃ hio : i < out.length, out.get ⟨i, hio⟩ = batch.get ⟨i, hi⟩ := by
  obtain ⟨hio, hval⟩ := valRespond_get client batch out i hi h
  refine ⟨hio, ?_⟩
  rw [hval]
  simp only [List.get_eq_getElem] at hc
  simp [valEntry, hc, valStep, validate]

/-- Witness for C5 at a one-address batch and a zero-candidate geocoder. -/
theorem c5_witness :
    ∃ hio : 0 < List.length [addrMain],
      List.get [addrMain] ⟨0, hio⟩ = List.get [addrMain] ⟨0, (by decide)⟩ :=
  c5_zero_candidates_unchanged okEmptyClient [addrMain] [addrMain] 0 (by decide)
    rfl rfl

/-- C6: when the first candidate's derived Address equals the original on
core-field equality, the output entry is the original entry itself, every
field included — a previously set carrier_route is untouched. -/
theorem c6_equal_candidate_keeps_original
    (client : Address → ApiResult (List CandAttributes))
    (batch out : List Address) (i : Nat) (hi : i < batch.length)
    (attrs : CandAttributes) (cs : List CandAttributes)
    (h : validationRespond client batch = StageResult.ok out)
    (hc : client (batch.get ⟨i, hi⟩) = ApiResult.ok (attrs :: cs))
    (heq : coreEq (batch.get ⟨i, hi⟩) (candAddress attrs) = true) :
    ∃ hio : i < out.length, out.get ⟨i, hio⟩ = batch.get ⟨i, hi⟩ := by
  obtain ⟨hio, hval⟩ := valRespond_get client batch out i hi h
  refine ⟨hio, ?_⟩
  rw [hval]
  simp only [valEntry, hc, valStep, validate, List.head?]
  simp only [candAddress] at heq
  rw [heq]
  simp

/-- Witness for C6: an address with carrier_route already set to R777 and a
core-field-identical candidate; the entry, route included, is untouched. -/
theorem c6_witness :
    ∃ hio : 0 < List.length [addrMainRoute],
      List.get [addrMainRoute] ⟨0, hio⟩ = List.get [addrMainRoute] ⟨0, (by decide)⟩ :=
  c6_equal_candidate_keeps_original matchClient [addrMainRoute] [addrMainRoute]
    0 (by decide) candMain [] rfl rfl (by decide)

/-- C8 counterexample: with a batch of two addresses where the first gets a
differing candidate and the geocoder raises a KeyError on the second, the
stage aborts but the first entry has already been replaced in place — so the
list is left modified. -/
theorem c8_counterexample :
    validationRespond keyErrClient [addrNoApt, addrMain] =
      StageResult.err "KeyError: candidates" [candAddress candElm, addrMain] ∧
      candAddress candElm ≠ addrNoApt :=
  ⟨rfl, by decide⟩

/-- C8 (amended): a network or malformed-response error on the first failing
address propagates out of the validation stage (fail-fast, no retry, nothing
returned), but entries before the failing index keep their in-place
replacements while entries from the failing index on are unmodified. -/
theorem c8_error_aborts_midbatch_mutation
    (client : Address → ApiResult (List CandAttributes))
    (batch : List Address) (k : Nat) (hk : k < batch.length) (e : String)
    (hok : ∀ j (hj : j < batch.length), j < k →
      ∃ cs, client (batch.get ⟨j, hj⟩) = ApiResult.ok cs)
    (herr : client (batch.get ⟨k, hk⟩) = ApiResult.err e) :
    validationRespond client batch =
      StageResult.err e
        ((batch.take k).map (valEntry client) ++ batch.drop k) := by
  simpa [validationRespond] using valAux_err client batch k hk e [] hok herr

/-- Witness for the amended C8 at the concrete failing batch. -/
theorem c8_witness :
    validationRespond keyErrClient [addrNoApt, addrMain] =
      StageResult.err "KeyError: candidates"
        ((([addrNoApt, addrMain] : List Address).take 1).map (valEntry keyErrClient) ++
          ([addrNoApt, addrMain] : List Address).drop 1) :=
  c8_error_aborts_midbatch_mutation keyErrClient [addrNoApt, addrMain] 1
    (by decide) "KeyError: candidates"
    (by
      intro j hj hj1
      interval_cases j
      exact ⟨[candElm], rfl⟩)
    rfl

/-- C9 counterexample: for an address with an absent apartment number the
request's address2 is the literal placeholder text "None", not an explicit
empty value. -/
theorem c9_counterexample :
    addrNoApt.apt_number = PyStr.none ∧
      (carrierData addrNoApt).address2 = "None" ∧ ("None" : String) ≠ "" :=
  ⟨rfl, rfl, by decide⟩

/-- C9 (amended): the carrier-route request carries address1 = street number
++ " " ++ street name, address2 = the f-string rendering of the apartment
number (its value when present, the literal text "None" when absent), the
city, state and zip, and an empty urban-code field. -/
theorem c9_request_fields (address : Address) :
    (carrierData address).address1 =
        address.street_number ++ " " ++ address.street_name ∧
    (carrierData address).address2 = address.apt_number.toPy ∧
    (∀ s, (PyStr.str s).toPy = s) ∧
    PyStr.none.toPy = "None" ∧
    (carrierData address).city = address.city ∧
    (carrierData address).state = address.state ∧
    (carrierData address).zip = address.zip ∧
    (carrierData address).urbanCode = "" :=
  ⟨rfl, rfl, fun _ => rfl, rfl, rfl, rfl, rfl, rfl⟩

/-- C7: `add_first` inserts at the head and `add_last` at the tail of the
responder deque; from stages [A, B], add_first C then add_last D yield the
stage list [C, A, B, D] and that execution order. -/
theorem c7_add_first_add_last_order :
    (∀ (s : Stage) (l : List Stage), addFirst s l = s :: l ∧ addLast s l = l ++ [s]) ∧
    ∀ (fa fb fc fd : List Address → List Address) (batch : List Address),
      addLast (pureStage fd) (addFirst (pureStage fc) [pureStage fa, pureStage fb]) =
        [pureStage fc, pureStage fa, pureStage fb, pureStage fd] ∧
      pipelineRespond
          (addLast (pureStage fd) (addFirst (pureStage fc) [pureStage fa, pureStage fb]))
          batch =
        Option.some (StageResult.ok (fd (fb (fa (fc batch))))) :=
  ⟨fun _ _ => ⟨rfl, rfl⟩, fun _ _ _ _ _ => ⟨rfl, rfl⟩⟩

/-- C10: `ResponderPipeline.respond` with zero stages raises (the `response`
variable is never bound) instead of returning the input batch. -/
theorem c10_empty_pipeline_errors (batch : List Address) :
    pipelineRespond [] batch = Option.none ∧
      pipelineRespond [] batch ≠ Option.some (StageResult.ok batch) :=
  ⟨rfl, by simp [pipelineRespond]⟩

end RouteMining
